import Mathlib

/-!
Shallow embedding of `src/skills/generate_wuxing_agent_status_report/scripts/index.py`.

The script reads one JSON object from standard input, gathers platform,
Node.js-version, memory and time facts, renders a fixed Markdown report via
`handler`, and prints it.  Machine-level effects (the subprocess probe, the
psutil memory reading, the clock) enter the embedding as an explicit
environment record `Env`; fallible Python code is translated to `Except`.
-/

/-- Python exception classes relevant to this script.  Per CPython's class
hierarchy: `FileNotFoundError < OSError`, the builtin `TimeoutError < OSError`,
`subprocess.CalledProcessError < SubprocessError` and
`subprocess.TimeoutExpired < SubprocessError`.  In particular
`subprocess.TimeoutExpired` is NOT a subclass of the builtin `TimeoutError`. -/
inductive PyExnClass
  | calledProcessError
  | fileNotFoundError
  | timeoutError
  | timeoutExpired
  deriving DecidableEq, Repr

/-- Python's `str.strip()` with no argument, restricted to the ASCII
whitespace characters it removes: space, tab, newline, carriage return,
vertical tab, form feed. -/
def pyIsSpace (c : Char) : Bool :=
  c = ' ' || c = '\t' || c = '\n' || c = '\r' || c = '\x0b' || c = '\x0c'

/-- Python's `s.strip()`: drop leading and trailing whitespace. -/
def pyStrip (s : String) : String :=
  String.mk (((s.data.dropWhile pyIsSpace).reverse.dropWhile pyIsSpace).reverse)

/-- Python's `str.lower()`, character by character (ASCII range; the platform
names this script lowercases are ASCII). -/
def pyLower (s : String) : String :=
  String.mk (s.data.map Char.toLower)

/-- The parsed standard-input object, as far as `handler` reads it
(source lines 4-5): two optional keys, `current_workspace_files` and
`pending_tasks`, each a list of strings; `none` models an absent key.
Unknown keys are never read by `handler`, so they are not represented. -/
structure Args where
  current_workspace_files : Option (List String)
  pending_tasks : Option (List String)
  deriving DecidableEq, Repr

/-- The empty JSON object `{}` substituted for empty standard input
(source line 84). -/
def emptyArgs : Args := ⟨none, none⟩

/-- Result of `subprocess.run([...], capture_output=True, text=True)`:
a return code and the captured standard output. -/
structure CompletedProcess where
  returncode : Int
  stdout : String
  deriving DecidableEq, Repr

/-- The three machine-level outcomes of the probe
`subprocess.run` on the node version command (capture_output, text, timeout=5)
(source line 12): the binary is missing, the 5-second limit expires, or the
child runs to completion with some exit status and output. -/
inductive ProbeOutcome
  | fileNotFound
  | timedOut
  | completed (returncode : Int) (stdout : String)
  deriving DecidableEq, Repr

/-- Semantics of the `subprocess.run` call on source line 12, per CPython:
a missing binary raises `FileNotFoundError`; an expired `timeout=5` raises
`subprocess.TimeoutExpired`; a completed child returns a `CompletedProcess`
whatever its exit status — `CalledProcessError` is raised only under
`check=True`, which this call does not pass. -/
def subprocessRunNode : ProbeOutcome → Except PyExnClass CompletedProcess
  | .fileNotFound => .error .fileNotFoundError
  | .timedOut => .error .timeoutExpired
  | .completed rc out => .ok ⟨rc, out⟩

/-- Which exception classes the clause
`except (subprocess.CalledProcessError, FileNotFoundError, TimeoutError)`
(source line 13) catches.  `subprocess.TimeoutExpired` derives from
`SubprocessError`, not from the builtin `TimeoutError`, so it is not caught. -/
def probeExceptCatches : PyExnClass → Bool
  | .calledProcessError => true
  | .fileNotFoundError => true
  | .timeoutError => true
  | .timeoutExpired => false

/-- Source lines 11-14: run the probe and take `.stdout.strip()` of its
result; if the probe raises and the exception class is caught, substitute
the fixed sentinel `"未安装"` ("not installed"); an uncaught exception
propagates. -/
def nodeVersionStep (o : ProbeOutcome) : Except PyExnClass String :=
  match subprocessRunNode o with
  | .ok cp => .ok (pyStrip cp.stdout)
  | .error e => if probeExceptCatches e then .ok "未安装" else .error e

/-- The ambient machine facts `handler` consumes: what `platform.system()`
and `platform.architecture()[0]` return, the probe outcome, the byte counts
of `psutil.virtual_memory()` (`.used`, `.total`, `.available`), and the
string the `datetime.datetime.now().strftime` call (format `%Y-%m-%d %A`)
produces. -/
structure Env where
  systemName : String
  archBits : String
  probe : ProbeOutcome
  memUsed : Nat
  memTotal : Nat
  memAvailable : Nat
  timeStr : String
  deriving DecidableEq, Repr

/-- Source line 18: `used_mb = vm.used // (1024 * 1024)`. -/
def memUsedMB (env : Env) : Nat := env.memUsed / (1024 * 1024)

/-- Source line 19: `total_mb = vm.total // (1024 * 1024)`. -/
def memTotalMB (env : Env) : Nat := env.memTotal / (1024 * 1024)

/-- Source line 20: `free_mb = vm.available // (1024 * 1024)`. -/
def memFreeMB (env : Env) : Nat := env.memAvailable / (1024 * 1024)

/-- Source line 21:
`memory_status = f"已用{used_mb}MB / 总{total_mb}MB (剩余{free_mb}MB)"`. -/
def memoryStatus (env : Env) : String :=
  "已用" ++ toString (memUsedMB env) ++ "MB / 总" ++ toString (memTotalMB env)
    ++ "MB (剩余" ++ toString (memFreeMB env) ++ "MB)"

/-- Source lines 52-55: the workspace-files block — one bullet per file when
the list is truthy (non-empty), else the fixed `"- 无\n"` ("none") line. -/
def fileBullets (current_workspace_files : List String) : String :=
  if current_workspace_files.isEmpty then "- 无\n"
  else String.join (current_workspace_files.map (fun file => "- `" ++ file ++ "`\n"))

/-- Source lines 66-70: the pending-tasks block — one bullet per task when
the list is truthy (non-empty), else the fixed `"- 无\n"` ("none") line. -/
def taskBullets (pending_tasks : List String) : String :=
  if pending_tasks.isEmpty then "- 无\n"
  else String.join (pending_tasks.map (fun task => "- " ++ task ++ "\n"))

/-- Source lines 33-39: the static "core abilities" block. -/
def coreAbilities : String :=
  "## 🛠️ 核心能力\n"
    ++ "作为具备五行自进化能力的编程专家，我可以：\n"
    ++ "1. **文件操作**: 读取项目文件、写入安全隔离的workspace目录\n"
    ++ "2. **代码执行**: 运行Node.js代码并提供测试验证\n"
    ++ "3. **技能内化**: 将通过测试的代码转化为永久技能卡\n"
    ++ "4. **依赖管理**: 按需安装npm包\n"
    ++ "5. **外部协作**: 调用外部专家代理（codex/claude）\n\n"

/-- Source lines 41-48: the static Mermaid workflow block. -/
def workflowBlock : String :=
  "## 📋 标准工作流\n"
    ++ "```mermaid\n"
    ++ "graph LR\n"
    ++ "A[探路<br>list_dir/read_file] --> B[编码<br>write_file]\n"
    ++ "B --> C[验证<br>test_runner]\n"
    ++ "C -->|失败| B\n"
    ++ "C -->|成功| D[内化<br>incorporate_skill]\n"
    ++ "```\n\n"

/-- Source lines 59-63: the static "historical experience" block. -/
def historyBlock : String :=
  "## 🧠 历史经验库\n"
    ++ "1. 当无法直接获取特定版本发布信息时，应提供权威官方渠道作为替代方案\n"
    ++ "2. 当需完成编程全生命周期任务时，应遵循探路→编码→验证→内化闭环\n"
    ++ "3. 当Node.js项目启用ES Module时，应遵循对应语法、路径处理及配置规则\n"
    ++ "4. 当代理配置与工具运行逻辑不匹配时，应对齐标准模式并补充必要配置项\n\n"

/-- Source lines 26-73: the fixed Markdown template, assembled in the
source's `report += ...` order from the six computed values. -/
def reportOf (system_platform node_version memory_status current_time : String)
    (current_workspace_files pending_tasks : List String) : String :=
  "# 🤖 WuXing-Agent 自我状态报告\n\n"
    ++ "## 📊 实时运行环境\n"
    ++ "- **系统平台**: " ++ system_platform ++ "\n"
    ++ "- **Node.js版本**: " ++ node_version ++ "\n"
    ++ "- **内存状态**: " ++ memory_status ++ "\n"
    ++ "- **当前时间**: " ++ current_time ++ "\n\n"
    ++ coreAbilities
    ++ workflowBlock
    ++ "## 📂 当前工作区文件\n"
    ++ fileBullets current_workspace_files
    ++ "\n"
    ++ historyBlock
    ++ "## 🎯 待办事项\n"
    ++ taskBullets pending_tasks
    ++ "\n---\n随时可以向我提出编程需求"

/-- Source lines 3-74, `handler(args)`: read the two optional keys with
default `[]`, compute the platform string, run the version probe (the one
step that can raise past this point), read memory and time from the
environment, and return the rendered report.  An uncaught probe exception
propagates out of `handler`. -/
def handler (args : Args) (env : Env) : Except PyExnClass String :=
  let current_workspace_files := args.current_workspace_files.getD []
  let pending_tasks := args.pending_tasks.getD []
  let system_platform := pyLower env.systemName ++ " " ++ env.archBits
  match nodeVersionStep env.probe with
  | .error e => .error e
  | .ok node_version =>
      .ok (reportOf system_platform node_version (memoryStatus env) env.timeStr
        current_workspace_files pending_tasks)

/-- State-passing translation of `handler` for the frame property: every
operation the source performs on `args` — the two `dict.get` reads
(lines 4-5) and the read-only `for` iterations (lines 53-54, 67-68) — is
threaded through explicitly, returning the dictionary alongside its result.
`dict.get` in Python returns the value without modifying the dictionary. -/
def handlerSt (args : Args) (env : Env) : Except PyExnClass (String × Args) :=
  let current_workspace_files := args.current_workspace_files.getD []
  let argsAfterGet1 := args
  let pending_tasks := argsAfterGet1.pending_tasks.getD []
  let argsAfterGet2 := argsAfterGet1
  let system_platform := pyLower env.systemName ++ " " ++ env.archBits
  match nodeVersionStep env.probe with
  | .error e => .error e
  | .ok node_version =>
      let argsAfterLoops := argsAfterGet2
      .ok (reportOf system_platform node_version (memoryStatus env) env.timeStr
        current_workspace_files pending_tasks, argsAfterLoops)

/-- What the process writes to standard error: nothing, an unhandled-exception
traceback for the named exception class, or an explicitly printed message. -/
inductive StderrOut
  | silent
  | traceback (exnClass : String)
  | message (s : String)
  deriving DecidableEq, Repr

/-- Observable outcome of one process invocation: exit code, what was printed
to standard output (if anything), and what reached standard error. -/
structure ProcResult where
  exitCode : Nat
  stdout : Option String
  stderr : StderrOut
  deriving DecidableEq, Repr

/-- The fixed message of the `__main__` dependency guard (source line 79). -/
def psutilInstallMsg : String := "错误：需要安装psutil包，请运行pip install psutil"

/-- Rendering `str(e)` for the exception classes that can cross the
`handler` boundary; modelled from the CPython exception rendering for this
probe, with quoting elided. -/
def pyExnMessage : PyExnClass → String
  | .calledProcessError => "Command node -v returned non-zero exit status 1."
  | .fileNotFoundError => "[Errno 2] No such file or directory: node"
  | .timeoutError => "timed out"
  | .timeoutExpired => "Command node -v timed out after 5 seconds"

/-- Source lines 1 and 76-90, the whole process.  `psutilAvailable` says
whether `import psutil` succeeds; `jsonParse` is `json.loads` restricted to
the object shape `handler` reads (an error models a `JSONDecodeError`).

Control flow, in source order:
* line 1 `import psutil` — if psutil is unavailable this raises an unhandled
  `ModuleNotFoundError` before `__main__` runs: traceback, exit code 1;
* lines 77-81, the `__main__` guard `try: import psutil / except ImportError`
  — it runs only after the module-level import already succeeded, so its
  `except` branch (print `psutilInstallMsg`, exit 1) is unreachable;
* line 83 `raw = sys.stdin.read().strip()`;
* line 84 `args = json.loads(raw) if raw else {}` — this call sits OUTSIDE
  the `try` block, so a parse failure is an unhandled `JSONDecodeError`:
  traceback, exit code 1;
* lines 85-90: `handler` wrapped in `try`; on success print the report
  (exit 0), on any exception print `"生成状态报告失败：{e}"` and exit 1. -/
def pyMain (psutilAvailable : Bool) (stdinContent : String)
    (jsonParse : String → Except String Args) (env : Env) : ProcResult :=
  if psutilAvailable = false then
    ⟨1, none, .traceback "ModuleNotFoundError"⟩
  else if psutilAvailable = false then
    ⟨1, none, .message psutilInstallMsg⟩
  else
    let raw := pyStrip stdinContent
    match (if raw = "" then Except.ok emptyArgs else jsonParse raw) with
    | .error _ => ⟨1, none, .traceback "json.decoder.JSONDecodeError"⟩
    | .ok args =>
        match handler args env with
        | .ok result => ⟨0, some (result ++ "\n"), .silent⟩
        | .error e => ⟨1, none, .message ("生成状态报告失败：" ++ pyExnMessage e)⟩

/-! ## Helper lemmas -/

/-- String concatenation is associative (at the level of character data). -/
theorem strAssoc (a b c : String) : a ++ b ++ c = a ++ (b ++ c) := by
  apply String.ext
  simp [String.data_append]

/-- Eliminating a successful `handler` run: the probe produced a version
string `nv` and the result is the rendered template. -/
theorem handler_ok_elim {args : Args} {env : Env} {r : String}
    (h : handler args env = Except.ok r) :
    ∃ nv, nodeVersionStep env.probe = Except.ok nv ∧
      r = reportOf (pyLower env.systemName ++ " " ++ env.archBits) nv
        (memoryStatus env) env.timeStr
        (args.current_workspace_files.getD []) (args.pending_tasks.getD []) := by
  unfold handler at h
  cases hnv : nodeVersionStep env.probe with
  | error e => rw [hnv] at h; cases h
  | ok nv =>
      rw [hnv] at h
      exact ⟨nv, rfl, (Except.ok.inj h).symm⟩

/-- A probe-success environment and input used to instantiate witnesses. -/
def sampleEnv : Env :=
  ⟨"Linux", "64bit", ProbeOutcome.completed 0 "v20.11.1\n",
    3145733, 8388612, 4194305, "2026-10-12 Sunday"⟩

def sampleArgs : Args := ⟨some ["a.txt", "b.js"], some ["task one"]⟩

def sampleReport : String :=
  reportOf "linux 64bit" "v20.11.1" (memoryStatus sampleEnv) "2026-10-12 Sunday"
    ["a.txt", "b.js"] ["task one"]

/-- C3: for every memory reading, `handler` converts each of the used, total
and available byte counts to whole megabytes by integer division by 1048576
and renders the memory line as the used/total/free labels (`已用`/`总`/`剩余`)
around those three values, embedded in the report. -/
theorem memory_line_format (args : Args) (env : Env) (r : String)
    (h : handler args env = Except.ok r) :
    memUsedMB env = env.memUsed / 1048576 ∧
    memTotalMB env = env.memTotal / 1048576 ∧
    memFreeMB env = env.memAvailable / 1048576 ∧
    ∃ a b, r = a ++ ("- **内存状态**: "
        ++ ("已用" ++ toString (memUsedMB env) ++ "MB / 总" ++ toString (memTotalMB env)
          ++ "MB (剩余" ++ toString (memFreeMB env) ++ "MB)") ++ "\n") ++ b := by
  obtain ⟨nv, hnv, hr⟩ := handler_ok_elim h
  refine ⟨rfl, rfl, rfl, ?_⟩
  refine ⟨"# 🤖 WuXing-Agent 自我状态报告\n\n" ++ "## 📊 实时运行环境\n"
      ++ "- **系统平台**: " ++ (pyLower env.systemName ++ " " ++ env.archBits) ++ "\n"
      ++ "- **Node.js版本**: " ++ nv ++ "\n",
    "- **当前时间**: " ++ env.timeStr ++ "\n\n" ++ coreAbilities ++ workflowBlock
      ++ "## 📂 当前工作区文件\n" ++ fileBullets (args.current_workspace_files.getD [])
      ++ "\n" ++ historyBlock ++ "## 🎯 待办事项\n"
      ++ taskBullets (args.pending_tasks.getD []) ++ "\n---\n随时可以向我提出编程需求", ?_⟩
  rw [hr]
  simp only [reportOf, memoryStatus, strAssoc]

/-- Witness for `memory_line_format` at a concrete input. -/
theorem memory_line_format_witness :
    memUsedMB sampleEnv = sampleEnv.memUsed / 1048576 ∧
    memTotalMB sampleEnv = sampleEnv.memTotal / 1048576 ∧
    memFreeMB sampleEnv = sampleEnv.memAvailable / 1048576 ∧
    ∃ a b, sampleReport = a ++ ("- **内存状态**: "
        ++ ("已用" ++ toString (memUsedMB sampleEnv) ++ "MB / 总"
          ++ toString (memTotalMB sampleEnv)
          ++ "MB (剩余" ++ toString (memFreeMB sampleEnv) ++ "MB)") ++ "\n") ++ b :=
  memory_line_format sampleArgs sampleEnv sampleReport rfl

/-- C4: for a valid memory reading (total at least used and at least
available), the three megabyte values of the memory line satisfy
total >= used and total >= free. -/
theorem mem_totals_dominate (env : Env)
    (h1 : env.memUsed ≤ env.memTotal) (h2 : env.memAvailable ≤ env.memTotal) :
    memUsedMB env ≤ memTotalMB env ∧ memFreeMB env ≤ memTotalMB env ∧
    memoryStatus env = "已用" ++ toString (memUsedMB env) ++ "MB / 总"
      ++ toString (memTotalMB env) ++ "MB (剩余" ++ toString (memFreeMB env) ++ "MB)" :=
  ⟨Nat.div_le_div_right h1, Nat.div_le_div_right h2, rfl⟩

/-- Witness for `mem_totals_dominate` at a concrete memory reading. -/
theorem mem_totals_dominate_witness :
    memUsedMB sampleEnv ≤ memTotalMB sampleEnv ∧
    memFreeMB sampleEnv ≤ memTotalMB sampleEnv ∧
    memoryStatus sampleEnv = "已用" ++ toString (memUsedMB sampleEnv) ++ "MB / 总"
      ++ toString (memTotalMB sampleEnv) ++ "MB (剩余"
      ++ toString (memFreeMB sampleEnv) ++ "MB)" :=
  mem_totals_dominate sampleEnv (by decide) (by decide)

/-- A non-empty workspace-file list takes the bullet branch. -/
theorem fileBullets_of_ne_nil {files : List String} (hne : files ≠ []) :
    fileBullets files = String.join (files.map (fun file => "- `" ++ file ++ "`\n")) := by
  cases files with
  | nil => exact absurd rfl hne
  | cons f fs => rfl

/-- A non-empty task list takes the bullet branch. -/
theorem taskBullets_of_ne_nil {tasks : List String} (hne : tasks ≠ []) :
    taskBullets tasks = String.join (tasks.map (fun task => "- " ++ task ++ "\n")) := by
  cases tasks with
  | nil => exact absurd rfl hne
  | cons t ts => rfl

/-- C5: for a non-empty `current_workspace_files` of size N, the report's
workspace-files section is exactly the concatenation of the N bullet lines
`- \x60{path}\x60\n`, one per input path, verbatim, in input order. -/
theorem files_bullets_verbatim (args : Args) (env : Env) (r : String)
    (files : List String)
    (hf : args.current_workspace_files = some files) (hne : files ≠ [])
    (h : handler args env = Except.ok r) :
    (files.map (fun file => "- `" ++ file ++ "`\n")).length = files.length ∧
    ∃ a b, r = a ++ ("## 📂 当前工作区文件\n"
      ++ String.join (files.map (fun file => "- `" ++ file ++ "`\n"))) ++ b := by
  obtain ⟨nv, hnv, hr⟩ := handler_ok_elim h
  refine ⟨List.length_map _ _, ?_⟩
  refine ⟨"# 🤖 WuXing-Agent 自我状态报告\n\n" ++ "## 📊 实时运行环境\n"
      ++ "- **系统平台**: " ++ (pyLower env.systemName ++ " " ++ env.archBits) ++ "\n"
      ++ "- **Node.js版本**: " ++ nv ++ "\n"
      ++ "- **内存状态**: " ++ memoryStatus env ++ "\n"
      ++ "- **当前时间**: " ++ env.timeStr ++ "\n\n" ++ coreAbilities ++ workflowBlock,
    "\n" ++ historyBlock ++ "## 🎯 待办事项\n"
      ++ taskBullets (args.pending_tasks.getD []) ++ "\n---\n随时可以向我提出编程需求", ?_⟩
  rw [hr, hf]
  simp only [Option.getD_some, fileBullets_of_ne_nil hne, reportOf, strAssoc]

/-- Witness for `files_bullets_verbatim` at a concrete two-file input. -/
theorem files_bullets_verbatim_witness :
    ((["a.txt", "b.js"] : List String).map (fun file => "- `" ++ file ++ "`\n")).length
      = (["a.txt", "b.js"] : List String).length ∧
    ∃ a b, sampleReport = a ++ ("## 📂 当前工作区文件\n"
      ++ String.join ((["a.txt", "b.js"] : List String).map
        (fun file => "- `" ++ file ++ "`\n"))) ++ b :=
  files_bullets_verbatim sampleArgs sampleEnv sampleReport ["a.txt", "b.js"]
    rfl (by decide) rfl

/-- Both sections fall back to the `- 无` placeholder when both lists are
empty (shared between the empty-input and whitespace-input results). -/
theorem none_placeholders_of_empty {args : Args} {env : Env} {r : String}
    (hf : args.current_workspace_files.getD [] = [])
    (ht : args.pending_tasks.getD [] = [])
    (h : handler args env = Except.ok r) :
    ∃ a b c, r = a ++ ("## 📂 当前工作区文件\n" ++ "- 无\n") ++ b
      ++ ("## 🎯 待办事项\n" ++ "- 无\n") ++ c := by
  obtain ⟨nv, hnv, hr⟩ := handler_ok_elim h
  refine ⟨"# 🤖 WuXing-Agent 自我状态报告\n\n" ++ "## 📊 实时运行环境\n"
      ++ "- **系统平台**: " ++ (pyLower env.systemName ++ " " ++ env.archBits) ++ "\n"
      ++ "- **Node.js版本**: " ++ nv ++ "\n"
      ++ "- **内存状态**: " ++ memoryStatus env ++ "\n"
      ++ "- **当前时间**: " ++ env.timeStr ++ "\n\n" ++ coreAbilities ++ workflowBlock,
    "\n" ++ historyBlock,
    "\n---\n随时可以向我提出编程需求", ?_⟩
  rw [hr, hf, ht]
  simp only [reportOf, fileBullets, taskBullets, List.isEmpty_nil, if_true, strAssoc]

/-- C6: with both input lists empty or absent (absence defaults to empty),
the report carries the fixed `- 无` ("none") placeholder line in both the
workspace-files section and the pending-tasks section. -/
theorem empty_lists_none_placeholders (args : Args) (env : Env) (r : String)
    (hf : args.current_workspace_files.getD [] = [])
    (ht : args.pending_tasks.getD [] = [])
    (h : handler args env = Except.ok r) :
    ∃ a b c, r = a ++ ("## 📂 当前工作区文件\n" ++ "- 无\n") ++ b
      ++ ("## 🎯 待办事项\n" ++ "- 无\n") ++ c :=
  none_placeholders_of_empty hf ht h

/-- Witness for `empty_lists_none_placeholders`: both keys absent. -/
theorem empty_lists_none_placeholders_witness :
    ∃ a b c, reportOf "linux 64bit" "v20.11.1" (memoryStatus sampleEnv)
        "2026-10-12 Sunday" [] []
      = a ++ ("## 📂 当前工作区文件\n" ++ "- 无\n") ++ b
        ++ ("## 🎯 待办事项\n" ++ "- 无\n") ++ c :=
  empty_lists_none_placeholders emptyArgs sampleEnv
    (reportOf "linux 64bit" "v20.11.1" (memoryStatus sampleEnv)
      "2026-10-12 Sunday" [] []) rfl rfl rfl

/-- An environment whose probe hits the 5-second limit. -/
def timeoutEnv : Env :=
  ⟨"Linux", "64bit", ProbeOutcome.timedOut, 3145733, 8388612, 4194305,
    "2026-10-12 Sunday"⟩

/-- The report rendered for the empty object in `sampleEnv`. -/
def sampleReportEmpty : String :=
  reportOf "linux 64bit" "v20.11.1" (memoryStatus sampleEnv) "2026-10-12 Sunday" [] []

/-- C1 (claim: every probe failure — missing binary, non-zero exit, timeout —
yields the `未安装` sentinel): the code substitutes the sentinel only for the
missing binary.  A timed-out probe raises `subprocess.TimeoutExpired`, which
the `except` clause (naming the builtin `TimeoutError` instead) does not
catch, so it propagates out of `handler` and the top-level wrapper exits 1;
a completed probe with non-zero exit status returns its stripped stdout,
because `run` without `check=True` never raises `CalledProcessError`. -/
theorem probe_failure_sentinel_only_for_missing_binary :
    nodeVersionStep ProbeOutcome.fileNotFound = Except.ok "未安装" ∧
    nodeVersionStep ProbeOutcome.timedOut = Except.error PyExnClass.timeoutExpired ∧
    nodeVersionStep (ProbeOutcome.completed 1 "node: bad option\n")
      = Except.ok "node: bad option" ∧
    handler emptyArgs timeoutEnv = Except.error PyExnClass.timeoutExpired ∧
    pyMain true "" (fun _ => Except.ok emptyArgs) timeoutEnv
      = ⟨1, none, StderrOut.message
          ("生成状态报告失败：" ++ pyExnMessage PyExnClass.timeoutExpired)⟩ :=
  ⟨rfl, rfl, rfl, rfl, rfl⟩

/-- C2 (claim: missing psutil prints the fixed install message to stderr and
exits 1 before any work): with psutil unavailable, the line-1 `import psutil`
fails before `__main__` runs, so the process exits 1 with an unhandled
`ModuleNotFoundError` traceback — not with the fixed message, whose `print`
sits in a guard that can only run after the import already succeeded. -/
theorem psutil_missing_traceback_not_fixed_message (stdin : String)
    (parse : String → Except String Args) (env : Env) :
    pyMain false stdin parse env
      = ⟨1, none, StderrOut.traceback "ModuleNotFoundError"⟩ ∧
    StderrOut.traceback "ModuleNotFoundError" ≠ StderrOut.message psutilInstallMsg :=
  ⟨rfl, by simp⟩

/-- The behaviour of `json.loads` on inputs it rejects, as a stub parse
function that fails on every string it is given. -/
def failingParse : String → Except String Args :=
  fun _ => Except.error "Expecting value: line 1 column 1 (char 0)"

/-- C7 counterexample: whitespace-only standard input is non-empty and is not
valid JSON (`json.loads` would reject it, as `failingParse` records), yet the
process strips it to the empty string before the emptiness test, substitutes
the empty object, and exits 0 with a report and a silent standard error. -/
theorem malformed_json_claim_counterexample :
    ("   \n\t  " : String) ≠ "" ∧
    failingParse "   \n\t  " = Except.error "Expecting value: line 1 column 1 (char 0)" ∧
    pyMain true "   \n\t  " failingParse sampleEnv
      = ⟨0, some (sampleReportEmpty ++ "\n"), StderrOut.silent⟩ :=
  ⟨by decide, rfl, rfl⟩

/-- C7 amended: standard input that is non-empty AFTER whitespace stripping
and not valid JSON makes the process exit nonzero — the parse failure is an
unhandled `JSONDecodeError`, since `json.loads` sits outside the `try` block
— with a non-empty standard error. -/
theorem malformed_json_nonzero_exit (p : Bool) (stdin : String)
    (parse : String → Except String Args) (env : Env) (msg : String)
    (hne : pyStrip stdin ≠ "") (hp : parse (pyStrip stdin) = Except.error msg) :
    (pyMain p stdin parse env).exitCode ≠ 0 ∧
    (pyMain p stdin parse env).stderr ≠ StderrOut.silent := by
  cases p <;> simp [pyMain, hne, hp]

/-- Witness for `malformed_json_nonzero_exit` on a concrete malformed input. -/
theorem malformed_json_nonzero_exit_witness :
    (pyMain true "not json" failingParse sampleEnv).exitCode ≠ 0 ∧
    (pyMain true "not json" failingParse sampleEnv).stderr ≠ StderrOut.silent :=
  malformed_json_nonzero_exit true "not json" failingParse sampleEnv
    "Expecting value: line 1 column 1 (char 0)" (by decide) rfl

/-- C8: two successful `handler` runs over the same input object and the same
platform, architecture and probe outcome render reports that agree everywhere
outside the memory-status and timestamp segments: a common prefix `a`,
middle `b` and suffix `c` surround exactly those two varying substrings. -/
theorem render_two_run_determinism (args : Args) (env1 env2 : Env)
    (r1 r2 : String)
    (hs : env1.systemName = env2.systemName) (ha : env1.archBits = env2.archBits)
    (hp : env1.probe = env2.probe)
    (h1 : handler args env1 = Except.ok r1) (h2 : handler args env2 = Except.ok r2) :
    ∃ a b c, r1 = a ++ memoryStatus env1 ++ b ++ env1.timeStr ++ c ∧
      r2 = a ++ memoryStatus env2 ++ b ++ env2.timeStr ++ c := by
  obtain ⟨nv1, hnv1, hr1⟩ := handler_ok_elim h1
  obtain ⟨nv2, hnv2, hr2⟩ := handler_ok_elim h2
  have hnv : nv1 = nv2 := by
    rw [hp] at hnv1
    exact Except.ok.inj (hnv1.symm.trans hnv2)
  refine ⟨"# 🤖 WuXing-Agent 自我状态报告\n\n" ++ "## 📊 实时运行环境\n"
      ++ "- **系统平台**: " ++ (pyLower env1.systemName ++ " " ++ env1.archBits) ++ "\n"
      ++ "- **Node.js版本**: " ++ nv1 ++ "\n" ++ "- **内存状态**: ",
    "\n" ++ "- **当前时间**: ",
    "\n\n" ++ coreAbilities ++ workflowBlock ++ "## 📂 当前工作区文件\n"
      ++ fileBullets (args.current_workspace_files.getD []) ++ "\n" ++ historyBlock
      ++ "## 🎯 待办事项\n" ++ taskBullets (args.pending_tasks.getD [])
      ++ "\n---\n随时可以向我提出编程需求", ?_, ?_⟩
  · rw [hr1]
    simp only [reportOf, strAssoc]
  · rw [hr2, hs, ha, hnv]
    simp only [reportOf, strAssoc]

/-- A second environment snapshot: same platform, architecture and probe as
`sampleEnv`, different memory reading and timestamp. -/
def sampleEnv2 : Env :=
  ⟨"Linux", "64bit", ProbeOutcome.completed 0 "v20.11.1\n",
    5242881, 8388612, 2097153, "2026-10-13 Monday"⟩

/-- The report `sampleArgs` renders in `sampleEnv2`. -/
def sampleReport2 : String :=
  reportOf "linux 64bit" "v20.11.1" (memoryStatus sampleEnv2) "2026-10-13 Monday"
    ["a.txt", "b.js"] ["task one"]

/-- Witness for `render_two_run_determinism`: two snapshots differing in
memory and time only. -/
theorem render_two_run_determinism_witness :
    ∃ a b c, sampleReport = a ++ memoryStatus sampleEnv ++ b ++ sampleEnv.timeStr ++ c ∧
      sampleReport2 = a ++ memoryStatus sampleEnv2 ++ b ++ sampleEnv2.timeStr ++ c :=
  render_two_run_determinism sampleArgs sampleEnv sampleEnv2 sampleReport sampleReport2
    rfl rfl rfl rfl rfl

/-- C9: the state-passing translation of `handler` hands the input dictionary
back unchanged — the source only reads `args` (two `dict.get` calls and two
read-only `for` iterations) — and agrees with `handler` on the report. -/
theorem handler_frame (args : Args) (env : Env) (r : String) (args' : Args)
    (h : handlerSt args env = Except.ok (r, args')) :
    args' = args ∧ handler args env = Except.ok r := by
  unfold handlerSt at h
  unfold handler
  cases hnv : nodeVersionStep env.probe with
  | error e => rw [hnv] at h; cases h
  | ok nv =>
      rw [hnv] at h
      injection h with hpair
      injection hpair with hfst hsnd
      exact ⟨hsnd.symm, by exact congrArg Except.ok hfst⟩

/-- Witness for `handler_frame` at a concrete input. -/
theorem handler_frame_witness :
    sampleArgs = sampleArgs ∧ handler sampleArgs sampleEnv = Except.ok sampleReport :=
  handler_frame sampleArgs sampleEnv sampleReport sampleArgs rfl

/-- C10: whitespace-only standard input is stripped to the empty string and
hence treated as the empty object: the process prints a normal report, with
the `- 无` placeholder in both the files and tasks sections, and exits 0 with
a silent standard error instead of a JSON parse failure. -/
theorem whitespace_stdin_acts_as_empty_object (stdin : String)
    (parse : String → Except String Args) (env : Env) (r : String)
    (hws : pyStrip stdin = "") (h : handler emptyArgs env = Except.ok r) :
    pyMain true stdin parse env = ⟨0, some (r ++ "\n"), StderrOut.silent⟩ ∧
    ∃ a b c, r = a ++ ("## 📂 当前工作区文件\n" ++ "- 无\n") ++ b
      ++ ("## 🎯 待办事项\n" ++ "- 无\n") ++ c := by
  refine ⟨?_, @none_placeholders_of_empty emptyArgs env r rfl rfl h⟩
  simp [pyMain, hws, h]

/-- Witness for `whitespace_stdin_acts_as_empty_object` on a whitespace-only
(non-empty) standard input. -/
theorem whitespace_stdin_acts_as_empty_object_witness :
    pyMain true " \n\t " failingParse sampleEnv
      = ⟨0, some (sampleReportEmpty ++ "\n"), StderrOut.silent⟩ ∧
    ∃ a b c, sampleReportEmpty = a ++ ("## 📂 当前工作区文件\n" ++ "- 无\n") ++ b
      ++ ("## 🎯 待办事项\n" ++ "- 无\n") ++ c :=
  whitespace_stdin_acts_as_empty_object " \n\t " failingParse sampleEnv
    sampleReportEmpty (by decide) rfl
